import Mathlib

/-!
A shallow embedding of the response-decoding layer of the wundergraph
rust-client (src/client.rs, src/errors.rs).

The JSON syntax layer (serde_json's byte-level parser) is external to the
repository; we model a parsed body as `Option Json` (`none` = the bytes were
not valid JSON).  The shape layer — the serde-derived deserializers for
`ResponseData<T>`, `GraphQLErrors`, `GraphQLError` and the untagged enum
`Response<T>` — is embedded explicitly below, following serde's derived
semantics for the JSON-object representation: fields may appear in any order,
unknown fields are ignored, a duplicate field is an error, a missing
mandatory field is an error, and a missing `Option` field defaults to `none`.
The caller-supplied payload type `T` is modelled by an arbitrary
deserialization function `deT : Json → Option α`.
-/

/-- A JSON value. -/
inductive Json where
  | null
  | bool (b : Bool)
  | num (n : Int)
  | str (s : String)
  | arr (elems : List Json)
  | obj (fields : List (String × Json))

/-- `GraphQLError` from src/errors.rs: a single error with a message. -/
structure GraphQLError where
  message : String
deriving DecidableEq

/-- `GraphQLErrors` from src/errors.rs: optional machine code plus an
ordered list of errors. -/
structure GraphQLErrors where
  code : Option String
  errors : List GraphQLError
deriving DecidableEq

/-- `ResponseError` from src/errors.rs: a structured error carrying the
transport status code, the optional machine code and the ordered errors. -/
structure ResponseError where
  status_code : Nat
  code : Option String
  errors : List GraphQLError
deriving DecidableEq

/-- An abstract `serde_json::Error` value (only its identity matters here). -/
structure SerdeError where
  msg : String
deriving DecidableEq

/-- The `Error` enum from src/errors.rs.  `SerializationError` holds a
`serde_json::Error` (via `#[from]`), `Other` holds an `anyhow::Error`,
modelled as its message. -/
inductive Error where
  | SerializationError (e : SerdeError)
  | InvalidHTTPStatusCodeError (status : Nat)
  | ResponseError (e : ResponseError)
  | Other (msg : String)
deriving DecidableEq

/-- serde deserialization of a `String`: only a JSON string is accepted. -/
def deString : Json → Option String
  | Json.str s => some s
  | _ => none

/-- serde deserialization of an `Option<String>`: `null` is `none`, a string
is `some`, anything else is an error. -/
def deOptString : Json → Option (Option String)
  | Json.null => some none
  | Json.str s => some (some s)
  | _ => none

/-- serde deserialization of a `Vec<_>` from a JSON array, elementwise. -/
def deList (de : Json → Option β) : Json → Option (List β)
  | Json.arr xs => xs.mapM de
  | _ => none

/-- Field loop of the derived deserializer for `GraphQLError`: the single
mandatory field `message`, unknown fields ignored, duplicates rejected. -/
def findMessageField : List (String × Json) → Option String → Option String
  | [], acc => acc
  | (k, v) :: rest, acc =>
    if k = "message" then
      match acc, deString v with
      | none, some s => findMessageField rest (some s)
      | _, _ => none
    else findMessageField rest acc

/-- Derived deserializer for `GraphQLError`. -/
def deGraphQLError : Json → Option GraphQLError
  | Json.obj fields => (findMessageField fields none).map GraphQLError.mk
  | _ => none

/-- Field loop of the derived deserializer for `GraphQLErrors`: optional
field `code` (defaults to `none` when absent), mandatory field `errors`,
unknown fields ignored, duplicates rejected. -/
def findGraphQLErrorsFields :
    List (String × Json) → Option (Option String) → Option (List GraphQLError) →
      Option GraphQLErrors
  | [], codeAcc, errsAcc => errsAcc.map (fun errs => ⟨codeAcc.getD none, errs⟩)
  | (k, v) :: rest, codeAcc, errsAcc =>
    if k = "code" then
      match codeAcc, deOptString v with
      | none, some c => findGraphQLErrorsFields rest (some c) errsAcc
      | _, _ => none
    else if k = "errors" then
      match errsAcc, deList deGraphQLError v with
      | none, some es => findGraphQLErrorsFields rest codeAcc (some es)
      | _, _ => none
    else findGraphQLErrorsFields rest codeAcc errsAcc

/-- Derived deserializer for `GraphQLErrors`. -/
def deGraphQLErrors : Json → Option GraphQLErrors
  | Json.obj fields => findGraphQLErrorsFields fields none none
  | _ => none

/-- Field loop of the derived deserializer for `ResponseData<T>` from
src/client.rs: the single mandatory field `data`, deserialized by the
caller-supplied `deT`; unknown fields ignored, duplicates rejected. -/
def findDataField (deT : Json → Option α) : List (String × Json) → Option α → Option α
  | [], acc => acc
  | (k, v) :: rest, acc =>
    if k = "data" then
      match acc, deT v with
      | none, some x => findDataField deT rest (some x)
      | _, _ => none
    else findDataField deT rest acc

/-- Derived deserializer for `ResponseData<T>` (src/client.rs lines 26-29). -/
def deResponseData (deT : Json → Option α) : Json → Option α
  | Json.obj fields => findDataField deT fields none
  | _ => none

/-- The untagged enum `Response<T>` from src/client.rs lines 31-36. -/
inductive Response (α : Type) where
  | Data (data : α)
  | Error (errors : GraphQLErrors)
deriving DecidableEq

/-- serde's `#[serde(untagged)]` deserializer for `Response<T>`: the
variants are tried in declaration order, `Data` first, then `Error`. -/
def deResponse (deT : Json → Option α) (j : Json) : Option (Response α) :=
  match deResponseData deT j with
  | some v => some (Response.Data v)
  | none => (deGraphQLErrors j).map Response.Error

/-- `serde_json::from_slice::<Response<T>>` as used in `decode_bytes`:
the input is the result of the syntax-level parse (`none` = invalid JSON);
a shape mismatch of the untagged enum is also a `serde_json::Error`. -/
def from_slice (deT : Json → Option α) : Option Json → Except SerdeError (Response α)
  | none => Except.error ⟨"expected value"⟩
  | some j =>
    match deResponse deT j with
    | some r => Except.ok r
    | none => Except.error ⟨"data did not match any variant of untagged enum Response"⟩

/-- `reqwest::StatusCode::is_success`: 2xx. -/
def isSuccessStatus (s : Nat) : Bool := 200 ≤ s && s < 300

/-- `decode_bytes` from src/client.rs lines 151-182: decode first, then
reconcile with the transport status code. -/
def decode_bytes (deT : Json → Option α) (status_code : Nat) (parsed : Option Json) :
    Except Error α :=
  match from_slice deT parsed with
  | Except.ok (Response.Data v) => Except.ok v
  | Except.ok (Response.Error e) =>
      Except.error (Error.ResponseError ⟨status_code, e.code, e.errors⟩)
  | Except.error err =>
      if !isSuccessStatus status_code then
        Except.error (Error.InvalidHTTPStatusCodeError status_code)
      else
        Except.error (Error.SerializationError err)

/-- The query parameters attached by `Client::query` (src/client.rs lines
65-69): the serialized input under `wg_variables`, then the application
hash under `wg_app_hash`. -/
def queryRequestParams (application_hash : String) (data : String) :
    List (String × String) :=
  [("wg_variables", data), ("wg_app_hash", application_hash)]

/-- The query parameters attached by `streaming_request` (src/client.rs
lines 202-214): as for `query`, plus `wg_live` when in live-query mode. -/
def streamingRequestParams (application_hash : String) (data : String) (live : Bool) :
    List (String × String) :=
  [("wg_variables", data), ("wg_app_hash", application_hash)] ++
    (if live then [("wg_live", "true")] else [])

/-- The result of `Client::query` after the transport returned
`(status_code, body)`: `serde_json::to_string(&input)?` first (its
`serde_json::Error` becomes `Error::SerializationError` via `?`/`#[from]`),
then `decode_bytes`. -/
def query_result (serialized : Except SerdeError String) (deT : Json → Option α)
    (status_code : Nat) (parsed : Option Json) : Except Error α :=
  match serialized with
  | Except.error e => Except.error (Error.SerializationError e)
  | Except.ok _ => decode_bytes deT status_code parsed

/-- The classification a caller can inspect: which variant of `Error`. -/
def errorKind : Error → Nat
  | Error.SerializationError _ => 0
  | Error.InvalidHTTPStatusCodeError _ => 1
  | Error.ResponseError _ => 2
  | Error.Other _ => 3

/-- The body of the `stream!` generator in `streaming_request`
(src/client.rs lines 235-239): each transport chunk item is either a read
failure (`Except.error`, which yields one terminal error item and ends the
sequence) or a byte chunk, decoded independently by `decode_bytes` with the
status captured at connection time. -/
def streamItems (deT : Json → Option α) (status : Nat) :
    List (Except String (Option Json)) → List (Except Error α)
  | [] => []
  | Except.error e :: _ => [Except.error (Error.Other e)]
  | Except.ok chunk :: rest => decode_bytes deT status chunk :: streamItems deT status rest

/-- `streaming_request` from src/client.rs lines 184-242, from the point
where the transport returned the initial `status` and the chunk sequence:
a non-2xx status fails the call immediately, otherwise the per-chunk
decoded sequence is returned. -/
def streaming_request (deT : Json → Option α) (status : Nat)
    (chunks : List (Except String (Option Json))) :
    Except Error (List (Except Error α)) :=
  if !isSuccessStatus status then
    Except.error (Error.InvalidHTTPStatusCodeError status)
  else
    Except.ok (streamItems deT status chunks)

/-- A concrete payload deserializer (Rust `i64`) used for witnesses. -/
def deInt : Json → Option Int
  | Json.num n => some n
  | _ => none

/-- A concrete ambiguous body: a JSON object carrying both a `data` key
(whose value deserializes as the payload) and the `code`/`errors` keys. -/
def ambiguousBody : Json :=
  Json.obj [("data", Json.num 1), ("code", Json.str "BAD"),
    ("errors", Json.arr [Json.obj [("message", Json.str "nope")]])]

/-- A concrete error-envelope body with two ordered messages. -/
def errorBody : Json :=
  Json.obj [("code", Json.str "BAD"),
    ("errors", Json.arr [Json.obj [("message", Json.str "nope")],
      Json.obj [("message", Json.str "later")]])]

deriving instance DecidableEq for Except

/-! ## Shared helper lemmas -/

/-- With a 2xx status, a parse failure is wrapped as `SerializationError`. -/
theorem decode_bytes_parse_fail_2xx (deT : Json → Option α) (status : Nat)
    (parsed : Option Json) (e : SerdeError) (hp : from_slice deT parsed = Except.error e)
    (hs : isSuccessStatus status = true) :
    decode_bytes deT status parsed = Except.error (Error.SerializationError e) := by
  simp [decode_bytes, hp, hs]

/-- With a 2xx status, `decode_bytes` never produces an HTTP-status error. -/
theorem decode_bytes_no_http_of_success (deT : Json → Option α) (status : Nat)
    (c : Option Json) (s : Nat) (hs : isSuccessStatus status = true) :
    decode_bytes deT status c ≠ Except.error (Error.InvalidHTTPStatusCodeError s) := by
  cases hfs : from_slice deT c with
  | ok r => cases r <;> simp [decode_bytes, hfs]
  | error e => simp [decode_bytes, hfs, hs]

/-- With a 2xx status, no item of the stream body is an HTTP-status error. -/
theorem streamItems_no_http (deT : Json → Option α) (status : Nat)
    (hs : isSuccessStatus status = true) (chunks : List (Except String (Option Json))) :
    ∀ r ∈ streamItems deT status chunks, ∀ s,
      r ≠ Except.error (Error.InvalidHTTPStatusCodeError s) := by
  induction chunks with
  | nil => intro r hr; simp [streamItems] at hr
  | cons c rest ih =>
    intro r hr s
    cases c with
    | error e =>
      simp only [streamItems, List.mem_singleton] at hr
      subst hr; simp
    | ok chunk =>
      simp only [streamItems, List.mem_cons] at hr
      rcases hr with h | h
      · subst h; exact decode_bytes_no_http_of_success deT status chunk s hs
      · exact ih r h s

/-- The stream body of a list of successfully read chunks is the elementwise
decode of the chunks. -/
theorem streamItems_map_ok (deT : Json → Option α) (status : Nat)
    (chunks : List (Option Json)) :
    streamItems deT status (chunks.map Except.ok) =
      chunks.map (decode_bytes deT status) := by
  induction chunks with
  | nil => rfl
  | cons c rest ih => simp [streamItems, ih]

/-! ## Claims -/

/-- Claim C1: for every body that decodes as the success envelope variant
(the `data` key deserializing via `deT`), `decode_bytes` returns success
carrying the decoded payload, for every transport status code, including
every non-2xx status. -/
theorem decode_bytes_success_any_status (deT : Json → Option α) (j : Json) (v : α)
    (status_code : Nat) (h : deResponseData deT j = some v) :
    decode_bytes deT status_code (some j) = Except.ok v := by
  simp [decode_bytes, from_slice, deResponse, h]

/-- Witness for C1: status 500, body `data: 1`, payload type Int. -/
theorem decode_bytes_success_any_status_witness :
    deResponseData deInt (Json.obj [("data", Json.num 1)]) = some 1 ∧
      decode_bytes deInt 500 (some (Json.obj [("data", Json.num 1)])) = Except.ok 1 :=
  ⟨by decide,
    decode_bytes_success_any_status deInt (Json.obj [("data", Json.num 1)]) 1 500 (by decide)⟩

/-- Claim C2: for every body that decodes as the error envelope variant,
`decode_bytes` returns a structured `ResponseError` carrying exactly the
given transport status code, the optional machine code from the body, and
the body's error messages in their original order — for every status. -/
theorem decode_bytes_error_envelope (deT : Json → Option α) (j : Json) (e : GraphQLErrors)
    (status_code : Nat) (hd : deResponseData deT j = none) (he : deGraphQLErrors j = some e) :
    decode_bytes deT status_code (some j) =
      Except.error (Error.ResponseError ⟨status_code, e.code, e.errors⟩) := by
  simp [decode_bytes, from_slice, deResponse, hd, he]

/-- Witness for C2: status 200, body with code BAD and two ordered messages. -/
theorem decode_bytes_error_envelope_witness :
    deResponseData deInt errorBody = none ∧
      deGraphQLErrors errorBody = some ⟨some "BAD", [⟨"nope"⟩, ⟨"later"⟩]⟩ ∧
      decode_bytes deInt 200 (some errorBody) =
        Except.error (Error.ResponseError ⟨200, some "BAD", [⟨"nope"⟩, ⟨"later"⟩]⟩) :=
  ⟨by decide, by decide,
    decode_bytes_error_envelope deInt errorBody ⟨some "BAD", [⟨"nope"⟩, ⟨"later"⟩]⟩ 200
      (by decide) (by decide)⟩

/-- Claim C3: for every body that fails to decode as either envelope
variant, with a non-2xx status, `decode_bytes` returns an HTTP-status error
carrying exactly that numeric status and nothing from the body. -/
theorem decode_bytes_malformed_non2xx (deT : Json → Option α) (parsed : Option Json)
    (e : SerdeError) (status_code : Nat) (hp : from_slice deT parsed = Except.error e)
    (hs : isSuccessStatus status_code = false) :
    decode_bytes deT status_code parsed =
      Except.error (Error.InvalidHTTPStatusCodeError status_code) := by
  simp [decode_bytes, hp, hs]

/-- Witness for C3: status 404, body not valid JSON. -/
theorem decode_bytes_malformed_non2xx_witness :
    from_slice deInt none = Except.error ⟨"expected value"⟩ ∧
      isSuccessStatus 404 = false ∧
      decode_bytes deInt 404 none = Except.error (Error.InvalidHTTPStatusCodeError 404) :=
  ⟨by decide, by decide,
    decode_bytes_malformed_non2xx deInt none ⟨"expected value"⟩ 404 (by decide) (by decide)⟩

/-- Claim C4: for every body that fails to decode as either envelope
variant, with a 2xx status, `decode_bytes` returns an unstructured parse
error wrapping the original parse failure — never a success value and never
an HTTP-status error. -/
theorem decode_bytes_malformed_2xx (deT : Json → Option α) (parsed : Option Json)
    (e : SerdeError) (status_code : Nat) (hp : from_slice deT parsed = Except.error e)
    (hs : isSuccessStatus status_code = true) :
    decode_bytes deT status_code parsed = Except.error (Error.SerializationError e) ∧
      (∀ v, decode_bytes deT status_code parsed ≠ Except.ok v) ∧
      (∀ s, decode_bytes deT status_code parsed ≠
        Except.error (Error.InvalidHTTPStatusCodeError s)) := by
  have he : decode_bytes deT status_code parsed =
      Except.error (Error.SerializationError e) := by
    simp [decode_bytes, hp, hs]
  refine ⟨he, fun v => ?_, fun s => ?_⟩ <;> rw [he] <;> simp

/-- Witness for C4: status 200, body not valid JSON. -/
theorem decode_bytes_malformed_2xx_witness :
    from_slice deInt none = Except.error ⟨"expected value"⟩ ∧
      isSuccessStatus 200 = true ∧
      decode_bytes deInt 200 none = Except.error (Error.SerializationError ⟨"expected value"⟩) :=
  ⟨by decide, by decide,
    (decode_bytes_malformed_2xx deInt none ⟨"expected value"⟩ 200 (by decide) (by decide)).1⟩

/-- Counterexample to claim C5: `ambiguousBody` matches the error shape
(`deGraphQLErrors` succeeds on it) and also carries a `data` key whose value
deserializes as the payload, yet `decode_bytes` classifies it as success:
serde's untagged decoding tries the `Data` variant first and ignores the
extra keys, so an ambiguous buffer is classified as success by default. -/
theorem ambiguous_body_classified_as_success :
    (deGraphQLErrors ambiguousBody).isSome = true ∧
      deResponseData deInt ambiguousBody = some 1 ∧
      decode_bytes deInt 200 (some ambiguousBody) = Except.ok 1 := by decide

/-- Claim C5 (amended): envelope decoding selects the variant from the raw
bytes alone by trying the success variant first and the error variant
second: a buffer matching neither shape reports a decode failure (never
silently coerced to a variant), and an ambiguous buffer matching both
shapes is classified as success (the `Data` variant is tried first),
regardless of whether the error shape also matches. -/
theorem deResponse_variant_selection (deT : Json → Option α) (j : Json) :
    (deResponseData deT j = none → deGraphQLErrors j = none →
      from_slice deT (some j) =
        Except.error ⟨"data did not match any variant of untagged enum Response"⟩) ∧
    (∀ v, deResponseData deT j = some v → deResponse deT j = some (Response.Data v)) ∧
    (∀ e, deResponseData deT j = none → deGraphQLErrors j = some e →
      deResponse deT j = some (Response.Error e)) := by
  refine ⟨fun hd he => ?_, fun v hv => ?_, fun e hd he => ?_⟩ <;>
    simp [from_slice, deResponse, *]

/-- Witness for C5 (amended): a buffer matching neither shape is a decode
failure; the ambiguous buffer decodes as the success variant. -/
theorem deResponse_variant_selection_witness :
    from_slice deInt (some (Json.arr [])) =
        Except.error ⟨"data did not match any variant of untagged enum Response"⟩ ∧
      deResponse deInt ambiguousBody = some (Response.Data 1) :=
  ⟨(deResponse_variant_selection deInt (Json.arr [])).1 (by decide) (by decide),
    (deResponse_variant_selection deInt ambiguousBody).2.1 1 (by decide)⟩

/-- Counterexample to claim C6: a failed input serialization and a 2xx
response whose body matches neither envelope shape surface to the caller as
the same classification (`Error.SerializationError`), so the two kinds are
not distinguishable by the caller. -/
theorem serialization_and_parse_error_same_kind :
    query_result (Except.error ⟨"key must be a string"⟩) deInt 200 none =
        Except.error (Error.SerializationError ⟨"key must be a string"⟩) ∧
      query_result (Except.ok "null") deInt 200 none =
        Except.error (Error.SerializationError ⟨"expected value"⟩) ∧
      errorKind (Error.SerializationError ⟨"key must be a string"⟩) =
        errorKind (Error.SerializationError ⟨"expected value"⟩) := by decide

/-- Claim C6 (amended): the error kinds surface as the variants of `Error`;
HTTP-status, structured and transport errors are pairwise distinct
classifications and distinct from `SerializationError`, but the
serialization-error kind and the unstructured-parse-error kind are both
surfaced as `Error.SerializationError`, hence share one classification. -/
theorem error_taxonomy_partial_distinction (deT : Json → Option α)
    (status : Nat) (parsed : Option Json) (ser pe : SerdeError) (r : ResponseError)
    (s : Nat) (m : String)
    (hp : from_slice deT parsed = Except.error pe) (hs : isSuccessStatus status = true) :
    query_result (Except.error ser) deT status parsed =
        Except.error (Error.SerializationError ser) ∧
      (∀ input, query_result (Except.ok input) deT status parsed =
        Except.error (Error.SerializationError pe)) ∧
      errorKind (Error.SerializationError ser) = errorKind (Error.SerializationError pe) ∧
      errorKind (Error.SerializationError ser) ≠ errorKind (Error.InvalidHTTPStatusCodeError s) ∧
      errorKind (Error.SerializationError ser) ≠ errorKind (Error.ResponseError r) ∧
      errorKind (Error.SerializationError ser) ≠ errorKind (Error.Other m) ∧
      errorKind (Error.InvalidHTTPStatusCodeError s) ≠ errorKind (Error.ResponseError r) ∧
      errorKind (Error.InvalidHTTPStatusCodeError s) ≠ errorKind (Error.Other m) ∧
      errorKind (Error.ResponseError r) ≠ errorKind (Error.Other m) := by
  refine ⟨rfl, fun input => ?_, rfl, ?_, ?_, ?_, ?_, ?_, ?_⟩ <;>
    simp [query_result, decode_bytes, errorKind, hp, hs]

/-- Witness for C6 (amended) at concrete inputs. -/
theorem error_taxonomy_partial_distinction_witness :
    query_result (Except.error ⟨"ser"⟩) deInt 200 none =
        Except.error (Error.SerializationError ⟨"ser"⟩) ∧
      query_result (Except.ok "null") deInt 200 none =
        Except.error (Error.SerializationError ⟨"expected value"⟩) :=
  ⟨(error_taxonomy_partial_distinction deInt 200 none ⟨"ser"⟩ ⟨"expected value"⟩
      ⟨500, none, []⟩ 404 "transport" (by decide) (by decide)).1,
    (error_taxonomy_partial_distinction deInt 200 none ⟨"ser"⟩ ⟨"expected value"⟩
      ⟨500, none, []⟩ 404 "transport" (by decide) (by decide)).2.1 "null"⟩

/-- Claim C7: for every streaming call, if the initial response status is
non-2xx, the call returns an HTTP-status error carrying that status
immediately and no sequence of items is produced. -/
theorem streaming_request_non_2xx_fails (deT : Json → Option α) (status : Nat)
    (chunks : List (Except String (Option Json))) (hs : isSuccessStatus status = false) :
    streaming_request deT status chunks =
      Except.error (Error.InvalidHTTPStatusCodeError status) := by
  simp [streaming_request, hs]

/-- Witness for C7: status 404 with chunks pending on the wire. -/
theorem streaming_request_non_2xx_fails_witness :
    isSuccessStatus 404 = false ∧
      streaming_request deInt 404 [Except.ok (some (Json.obj [("data", Json.num 1)]))] =
        Except.error (Error.InvalidHTTPStatusCodeError 404) :=
  ⟨by decide,
    streaming_request_non_2xx_fails deInt 404
      [Except.ok (some (Json.obj [("data", Json.num 1)]))] (by decide)⟩

/-- Claim C8: within one streaming sequence, each successfully read chunk is
decoded independently by `decode_bytes` with the status captured at
connection time, yielding exactly one item per chunk in arrival order; a
chunk that fails to decode yields an error item without terminating the
sequence. -/
theorem streaming_request_one_item_per_chunk (deT : Json → Option α) (status : Nat)
    (chunks : List (Option Json)) (hs : isSuccessStatus status = true) :
    streaming_request deT status (chunks.map Except.ok) =
      Except.ok (chunks.map (decode_bytes deT status)) := by
  simp [streaming_request, hs, streamItems_map_ok]

/-- Witness for C8: three chunks, the second malformed, yield exactly three
items in order, with only the second an error. -/
theorem streaming_request_one_item_per_chunk_witness :
    isSuccessStatus 200 = true ∧
      streaming_request deInt 200 ([some (Json.obj [("data", Json.num 1)]), none,
          some (Json.obj [("data", Json.num 3)])].map Except.ok) =
        Except.ok [Except.ok 1,
          Except.error (Error.SerializationError ⟨"expected value"⟩),
          Except.ok 3] := by
  refine ⟨by decide, ?_⟩
  rw [streaming_request_one_item_per_chunk deInt 200
    [some (Json.obj [("data", Json.num 1)]), none, some (Json.obj [("data", Json.num 3)])]
    (by decide)]
  decide

/-- Claim C10 (implicit): every item of a successfully established
streaming sequence is decoded under the 2xx status captured before the
first chunk, so no item is ever an HTTP-status (`InvalidHTTPStatusCodeError`)
error; a successfully read chunk whose body is malformed decodes to the
unstructured parse-error kind instead. -/
theorem stream_ok_items_never_http_status_error (deT : Json → Option α) (status : Nat)
    (chunks : List (Except String (Option Json))) (items : List (Except Error α))
    (h : streaming_request deT status chunks = Except.ok items) :
    (∀ r ∈ items, ∀ s, r ≠ Except.error (Error.InvalidHTTPStatusCodeError s)) ∧
      (∀ (c : Option Json) (e : SerdeError), Except.ok c ∈ chunks →
        from_slice deT c = Except.error e →
        decode_bytes deT status c = Except.error (Error.SerializationError e)) := by
  cases hs : isSuccessStatus status with
  | false => simp [streaming_request, hs] at h
  | true =>
    simp only [streaming_request, hs, Bool.not_true, Bool.false_eq_true, if_false,
      Except.ok.injEq] at h
    subst h
    exact ⟨streamItems_no_http deT status hs chunks,
      fun c e _ hf => decode_bytes_parse_fail_2xx deT status c e hf hs⟩

/-- Witness for C10: a one-chunk sequence whose chunk is malformed; the only
item is a parse error, not an HTTP-status error. -/
theorem stream_ok_items_never_http_status_error_witness :
    streaming_request deInt 200 [Except.ok none] =
        Except.ok [Except.error (Error.SerializationError ⟨"expected value"⟩)] ∧
      Except.error (Error.SerializationError ⟨"expected value"⟩) ≠
        (Except.error (Error.InvalidHTTPStatusCodeError 404) : Except Error Int) :=
  ⟨by decide,
    (stream_ok_items_never_http_status_error deInt 200 [Except.ok none]
        [Except.error (Error.SerializationError ⟨"expected value"⟩)] (by decide)).1
      (Except.error (Error.SerializationError ⟨"expected value"⟩)) (by simp) 404⟩

/-- Counterexample to claim C9: the GET-shaped requests carry the
serialized input under the query parameter key `wg_variables`; there is no
parameter with key `variables`. -/
theorem variables_key_counterexample :
    (queryRequestParams "h" "1").lookup "variables" = none ∧
      (queryRequestParams "h" "1").lookup "wg_variables" = some "1" ∧
      (streamingRequestParams "h" "1" true).lookup "variables" = none ∧
      (streamingRequestParams "h" "1" true).lookup "wg_variables" = some "1" := by decide

/-- Claim C9 (amended): for every GET-shaped call (query, subscribe,
live_query), the JSON-serialized input is carried in the request query
parameter whose key is `wg_variables`. -/
theorem wg_variables_key_carries_input (application_hash data : String) (live : Bool) :
    (queryRequestParams application_hash data).lookup "wg_variables" = some data ∧
      (streamingRequestParams application_hash data live).lookup "wg_variables" =
        some data := by
  constructor <;> rfl
